import Mathlib

/-!
Verification development for the `telephish` repository (single source file
`telephish.go`).  The program polls the Telegram Bot API for updates, takes
the last update, extracts the first URL entity from its message, and raises
a Windows toast notification pointing at that URL.

The Go code is shallowly embedded below.  Library calls that are out of
scope per the specification (the HTTP transport, the JSON parser, and the
COM/OLE notification subsystem) are abstracted as explicit parameters or as
a finite success/failure configuration; everything the repository itself
does (control flow, selection policy, string building, resource scoping via
`defer`) is translated faithfully from the source.
-/

namespace Telephish

/-- `Entity` (telephish.go lines 28-33): a structured annotation in a
message; `url` is populated only when `type` is `"url"`. -/
structure Entity where
  type : String
  offset : Int
  length : Int
  url : String
deriving DecidableEq

/-- `TelegramMsg` (lines 21-25).  The Go `Entities []Entity` slice can be
`nil` (JSON field absent) or a concrete slice; we keep the distinction with
`Option (List Entity)` because line 61 tests `message.Entities != nil`. -/
structure TelegramMsg where
  messageID : Int
  text : String
  entities : Option (List Entity)
deriving DecidableEq

/-- `Update` (lines 15-18).  `Message *TelegramMsg` is a nullable pointer,
embedded as `Option TelegramMsg`. -/
structure Update where
  updateID : Int
  message : Option TelegramMsg
deriving DecidableEq

/-- The anonymous response envelope decoded in `GetUpdates`
(lines 43-46): `{ Ok bool; Result []Update }`. -/
structure Envelope where
  ok : Bool
  result : List Update
deriving DecidableEq

/-- The three error sources of `GetUpdates`: the transport error returned at
line 39 (NetworkError), the JSON decode error returned at line 49
(DecodeError) and the `fmt.Errorf("failed to get updates")` at line 53
(APIError).  In Go all three are plain `error` values distinguished by
provenance; the constructor records that provenance. -/
inductive GoError where
  | networkError (msg : String)
  | decodeError (msg : String)
  | apiError (msg : String)
deriving DecidableEq

/-- `GetUpdates` (lines 36-57).  The HTTP GET and the JSON decoder are
library calls (out of scope per the spec), abstracted as the outcome
`httpGet` of the transport and the decoding function `decode` applied to
the response body.  The repository logic is: propagate a transport error,
propagate a decode error, reject an envelope with `Ok == false` with
`"failed to get updates"`, and otherwise return `updates.Result`
unchanged. -/
def GetUpdates (httpGet : Except String String)
    (decode : String → Except String Envelope) : Except GoError (List Update) :=
  match httpGet with
  | .error e => .error (.networkError e)
  | .ok body =>
    match decode body with
    | .error e => .error (.decodeError e)
    | .ok updates =>
      if updates.ok = false then
        .error (.apiError "failed to get updates")
      else
        .ok updates.result

/-- The `for _, entity := range message.Entities` loop of `ExtractURL`
(lines 62-66): returns `entity.URL` of the first entity whose `Type` is
`"url"`, falling through to the `return ""` at line 68. -/
def findURLLoop : List Entity → String
  | [] => ""
  | entity :: rest => if entity.type = "url" then entity.url else findURLLoop rest

/-- `ExtractURL` (lines 60-69) on a non-nil message: iterate the entities
when the slice is non-nil, otherwise return `""`. -/
def ExtractURL (message : TelegramMsg) : String :=
  match message.entities with
  | some entities => findURLLoop entities
  | none => ""

/-- Outcome of running a piece of Go code that may dereference a nil
pointer: either a value, or the runtime panic raised by the nil
dereference. -/
inductive Exec (α : Type) where
  | ok (a : α)
  | nilDeref
deriving DecidableEq

/-- `ExtractURL` as called through its `*TelegramMsg` pointer parameter:
line 61 reads `message.Entities` with no nil guard, so a nil pointer
faults; a non-nil pointer behaves as `ExtractURL`. -/
def ExtractURLPtr : Option TelegramMsg → Exec String
  | none => .nilDeref
  | some message => .ok (ExtractURL message)

/-- The `(title, content, url)` triple the Orchestrator hands to
`ShowNotification` at line 157 (the spec's NotificationRequest). -/
structure NotificationRequest where
  title : String
  body : String
  url : String
deriving DecidableEq

/-- Process exit status: `success` for `return` / falling off the end of
`main` (status 0), `failure` for `log.Fatalf` (non-zero status). -/
inductive ExitStatus where
  | success
  | failure
deriving DecidableEq

/-- Observable outcome of one run of `main`: the sequence of
`ShowNotification` invocations it performed and the exit status. -/
structure MainResult where
  notifications : List NotificationRequest
  status : ExitStatus
deriving DecidableEq

/-- `main` (lines 135-166), with the same external collaborators abstracted
as in `GetUpdates`, plus `notify`, the outcome of a `ShowNotification`
call.  Mirrors the source exactly: fetch (fatal on error), return on empty
list, select `updates[len(updates)-1]`, guard `lastUpdate.Message != nil`,
pass the checked pointer to `ExtractURL` (via `ExtractURLPtr`, so that a
nil dereference would surface as `Exec.nilDeref`), guard `url != ""`, then
notify with title `"New Message"` and body
`"You received a new message: " ++ message.Text` (fatal on error). -/
def mainGo (httpGet : Except String String)
    (decode : String → Except String Envelope)
    (notify : NotificationRequest → Except String Unit) : Exec MainResult :=
  match GetUpdates httpGet decode with
  | .error _ => .ok ⟨[], .failure⟩
  | .ok updates =>
    match updates with
    | [] => .ok ⟨[], .success⟩
    | u :: us =>
      let lastUpdate := List.getLast (u :: us) (List.cons_ne_nil u us)
      match lastUpdate.message with
      | some message =>
        match ExtractURLPtr (some message) with
        | .nilDeref => .nilDeref
        | .ok url =>
          if url ≠ "" then
            let title := "New Message"
            let content := "You received a new message: " ++ message.text
            let req : NotificationRequest := ⟨title, content, url⟩
            match notify req with
            | .error _ => .ok ⟨[req], .failure⟩
            | .ok _ => .ok ⟨[req], .success⟩
          else
            .ok ⟨[], .success⟩
      | none => .ok ⟨[], .success⟩

/-- The five platform resources `ShowNotification` (lines 72-133) acquires:
OLE initialization (line 74), the ToastNotificationManager COM object
(line 81), its IDispatch interface (line 88), the ToastNotifier variant
(line 95) and the template content variant (line 116). -/
inductive Res where
  | ole
  | manager
  | managerDispatch
  | notifier
  | content
deriving DecidableEq, Fintype

/-- An acquire or release of a platform resource, as counted by the spec's
fake platform layer. -/
inductive ResEvent where
  | acquire (r : Res)
  | release (r : Res)
deriving DecidableEq

/-- Whether each fallible platform step of `ShowNotification` succeeds:
`CoInitialize`, `CreateObject`, `QueryInterface`, `GetProperty
"ToastNotifier"`, `CallMethod "GetTemplateContent"`, `PutProperty
"InnerXml"`, `CallMethod "Show"`. -/
structure Platform where
  coInitOk : Bool
  createManagerOk : Bool
  queryInterfaceOk : Bool
  getNotifierOk : Bool
  getTemplateOk : Bool
  putXmlOk : Bool
  showOk : Bool
deriving DecidableEq

/-- `ShowNotification` (lines 72-133) with the opaque platform layer
abstracted by `p`, returning the acquire/release event trace of the run and
the function result.  Each `defer` of the source is pushed onto a LIFO
`defers` list right after the corresponding acquisition succeeds, exactly
as Go registers it, and on every `return` the pending defers run in LIFO
order (the list is consed at the front, so it is already in execution
order). -/
def ShowNotificationTrace (p : Platform) : List ResEvent × Except String Unit :=
  if p.coInitOk = false then
    ([], .error "failed to initialize OLE")
  else
    let acq1 := [ResEvent.acquire .ole]
    let defers1 := [ResEvent.release .ole]
    if p.createManagerOk = false then
      (acq1 ++ defers1, .error "failed to create ToastNotificationManager")
    else
      let acq2 := acq1 ++ [ResEvent.acquire .manager]
      let defers2 := ResEvent.release .manager :: defers1
      if p.queryInterfaceOk = false then
        (acq2 ++ defers2, .error "failed to query IDispatch")
      else
        let acq3 := acq2 ++ [ResEvent.acquire .managerDispatch]
        let defers3 := ResEvent.release .managerDispatch :: defers2
        if p.getNotifierOk = false then
          (acq3 ++ defers3, .error "failed to get ToastNotifier")
        else
          let acq4 := acq3 ++ [ResEvent.acquire .notifier]
          let defers4 := ResEvent.release .notifier :: defers3
          if p.getTemplateOk = false then
            (acq4 ++ defers4, .error "failed to get template content")
          else
            let acq5 := acq4 ++ [ResEvent.acquire .content]
            let defers5 := ResEvent.release .content :: defers4
            if p.putXmlOk = false then
              (acq5 ++ defers5, .error "failed to set inner XML")
            else if p.showOk = false then
              (acq5 ++ defers5, .error "failed to show notification")
            else
              (acq5 ++ defers5, .ok ())

/-- The single-quote character delimiting attribute values in the toast
template. -/
def squote : Char := Char.ofNat 39

/-- The `toastXML := fmt.Sprintf(..., title, message, url)` payload built
at lines 102-113: the raw-string template with the three `%s` verbs
replaced by the arguments, byte for byte, no escaping. -/
def toastXML (title message url : String) : String :=
  "\n    <toast>\n        <visual>\n            <binding template=\x27ToastGeneric\x27>\n                <text>"
    ++ title
    ++ "</text>\n                <text>"
    ++ message
    ++ "</text>\n            </binding>\n        </visual>\n        <actions>\n            <action content=\x27Open browser\x27 arguments=\x27"
    ++ url
    ++ "\x27 activationType=\x27foreground\x27/>\n        </actions>\n    </toast>"

/-- Drop characters up to and including the first occurrence of `marker`;
`none` when `marker` does not occur. -/
def dropThroughMarker (marker : List Char) : List Char → Option (List Char)
  | [] => none
  | c :: rest =>
    if marker.isPrefixOf (c :: rest) then some ((c :: rest).drop marker.length)
    else dropThroughMarker marker rest

/-- How an XML reader delimits the `arguments` attribute of the action
element: the characters after the first `arguments='` up to the next
single quote. -/
def argumentsAttrValue (payload : String) : Option String :=
  (dropThroughMarker ("arguments=\x27".toList) payload.toList).map
    (fun rest => String.mk (rest.takeWhile (fun c => c ≠ squote)))

/-! ## Helper lemmas -/

theorem findURLLoop_no_url {es : List Entity} (h : ∀ e ∈ es, e.type ≠ "url") :
    findURLLoop es = "" := by
  induction es with
  | nil => rfl
  | cons e rest ih =>
    have he : e.type ≠ "url" := h e (List.mem_cons_self e rest)
    simp only [findURLLoop, if_neg he]
    exact ih fun e2 h2 => h e2 (List.mem_cons_of_mem e h2)

theorem findURLLoop_first_url {pre : List Entity} {e : Entity} (post : List Entity)
    (hpre : ∀ e2 ∈ pre, e2.type ≠ "url") (he : e.type = "url") :
    findURLLoop (pre ++ e :: post) = e.url := by
  induction pre with
  | nil => simp [findURLLoop, he]
  | cons a rest ih =>
    have ha : a.type ≠ "url" := hpre a (List.mem_cons_self a rest)
    simp only [List.cons_append, findURLLoop, if_neg ha]
    exact ih fun e2 h2 => hpre e2 (List.mem_cons_of_mem a h2)

theorem getLast_snoc {α : Type} (l : List α) (a : α) (h : l ++ [a] ≠ []) :
    List.getLast (l ++ [a]) h = a :=
  List.getLast_append_singleton l

theorem mainGo_last (httpGet : Except String String)
    (decode : String → Except String Envelope)
    (notify : NotificationRequest → Except String Unit)
    (front : List Update) (lastUpdate : Update)
    (hfetch : GetUpdates httpGet decode = .ok (front ++ [lastUpdate])) :
    mainGo httpGet decode notify =
      (match lastUpdate.message with
       | some message =>
         if ExtractURL message ≠ "" then
           match notify ⟨"New Message", "You received a new message: " ++ message.text,
               ExtractURL message⟩ with
           | .error _ => .ok ⟨[⟨"New Message", "You received a new message: " ++ message.text,
               ExtractURL message⟩], .failure⟩
           | .ok _ => .ok ⟨[⟨"New Message", "You received a new message: " ++ message.text,
               ExtractURL message⟩], .success⟩
         else .ok ⟨[], .success⟩
       | none => .ok ⟨[], .success⟩) := by
  cases front with
  | nil => simp only [mainGo, hfetch, List.nil_append, ExtractURLPtr, List.getLast_singleton]
  | cons a t =>
    have hl : List.getLast (a :: (t ++ [lastUpdate])) (List.cons_ne_nil _ _) = lastUpdate :=
      getLast_snoc (a :: t) lastUpdate (by simp)
    simp only [mainGo, hfetch, List.cons_append, ExtractURLPtr, hl]

/-! ## Claims -/

/-- C2: for every message, `ExtractURL` returns the URL field of the first
entity in sequence order whose kind is `"url"`; it returns `""` when the
entity slice is nil, or no entity has the `"url"` kind (which covers the
empty slice); when several `"url"` entities exist, the first in sequence
order wins. -/
theorem extractURL_spec (m : TelegramMsg) :
    (m.entities = none → ExtractURL m = "") ∧
    (∀ es, m.entities = some es → (∀ e ∈ es, e.type ≠ "url") → ExtractURL m = "") ∧
    (∀ pre e post, m.entities = some (pre ++ e :: post) → e.type = "url" →
      (∀ e2 ∈ pre, e2.type ≠ "url") → ExtractURL m = e.url) := by
  refine ⟨fun h => ?_, fun es hes hnone => ?_, fun pre e post hes hurl hpre => ?_⟩
  · simp [ExtractURL, h]
  · simp [ExtractURL, hes, findURLLoop_no_url hnone]
  · simp [ExtractURL, hes, findURLLoop_first_url post hpre hurl]

/-- Witness for C2 at the spec's own example: entities
`[bold, url "https://a.example", url "https://b.example"]` yield the first
URL. -/
theorem extractURL_spec_witness :
    ExtractURL ⟨1, "t", some [⟨"bold", 0, 4, ""⟩, ⟨"url", 0, 1, "https://a.example"⟩,
      ⟨"url", 2, 3, "https://b.example"⟩]⟩ = "https://a.example" :=
  (extractURL_spec _).2.2 [⟨"bold", 0, 4, ""⟩] ⟨"url", 0, 1, "https://a.example"⟩
    [⟨"url", 2, 3, "https://b.example"⟩] rfl rfl (by decide)

/-- C3: whenever the body decodes into an envelope whose `Ok` flag is
false, `GetUpdates` fails with the APIError `"failed to get updates"` and
never returns a success value, empty or otherwise. -/
theorem getUpdates_apiError (body : String) (decode : String → Except String Envelope)
    (env : Envelope) (hdec : decode body = .ok env) (hok : env.ok = false) :
    GetUpdates (.ok body) decode = .error (.apiError "failed to get updates") ∧
    ∀ l : List Update, GetUpdates (.ok body) decode ≠ .ok l := by
  simp only [GetUpdates]
  rw [hdec]
  simp [hok]

/-- Witness for C3: a decoder producing `{ok := false, result := []}`. -/
theorem getUpdates_apiError_witness :
    GetUpdates (.ok "body") (fun _ => .ok ⟨false, []⟩)
      = .error (.apiError "failed to get updates") :=
  (getUpdates_apiError "body" (fun _ => .ok ⟨false, []⟩) ⟨false, []⟩ rfl rfl).1

/-- C5: when the body fails to decode, `GetUpdates` fails with a
DecodeError carrying the decoder's message, and a DecodeError is distinct
from every APIError. -/
theorem getUpdates_decodeError (body : String) (decode : String → Except String Envelope)
    (e : String) (hdec : decode body = .error e) :
    GetUpdates (.ok body) decode = .error (.decodeError e) ∧
    ∀ a b : String, GoError.decodeError a ≠ GoError.apiError b := by
  constructor
  · simp only [GetUpdates]
    rw [hdec]
  · intro a b h
    exact GoError.noConfusion h

/-- Witness for C5: a decoder that always fails. -/
theorem getUpdates_decodeError_witness :
    GetUpdates (.ok "not json") (fun _ => .error "invalid character")
      = .error (.decodeError "invalid character") :=
  (getUpdates_decodeError "not json" (fun _ => .error "invalid character")
    "invalid character" rfl).1

/-- C6: when the decoded envelope's `Ok` flag is true, `GetUpdates` returns
the envelope's `Result` list itself — same elements, same order, possibly
empty. -/
theorem getUpdates_success (body : String) (decode : String → Except String Envelope)
    (env : Envelope) (hdec : decode body = .ok env) (hok : env.ok = true) :
    GetUpdates (.ok body) decode = .ok env.result := by
  simp only [GetUpdates]
  rw [hdec]
  simp [hok]

/-- Witness for C6: a two-element result list comes back unchanged and in
order. -/
theorem getUpdates_success_witness :
    GetUpdates (.ok "body")
      (fun _ => .ok ⟨true, [⟨1, none⟩, ⟨2, none⟩]⟩)
      = .ok [⟨1, none⟩, ⟨2, none⟩] :=
  getUpdates_success "body" (fun _ => .ok ⟨true, [⟨1, none⟩, ⟨2, none⟩]⟩)
    ⟨true, [⟨1, none⟩, ⟨2, none⟩]⟩ rfl rfl

/-- C1: whenever the fetched update list's last element (by position)
carries a non-nil message and entity extraction on that message yields a
non-empty URL, `main` invokes the Notifier exactly once, with title
`"New Message"`, body `"You received a new message: "` followed by the
message text, and the extracted URL. -/
theorem mainGo_notifies_once (httpGet : Except String String)
    (decode : String → Except String Envelope)
    (notify : NotificationRequest → Except String Unit)
    (front : List Update) (lastUpdate : Update) (message : TelegramMsg) (u : String)
    (hfetch : GetUpdates httpGet decode = .ok (front ++ [lastUpdate]))
    (hmsg : lastUpdate.message = some message)
    (hurl : ExtractURL message = u) (hne : u ≠ "") :
    ∃ st : ExitStatus, mainGo httpGet decode notify
      = .ok ⟨[⟨"New Message", "You received a new message: " ++ message.text, u⟩], st⟩ := by
  rw [mainGo_last httpGet decode notify front lastUpdate hfetch]
  simp only [hmsg, hurl]
  rw [if_pos hne]
  cases hn : notify ⟨"New Message", "You received a new message: " ++ message.text, u⟩ with
  | error e => exact ⟨.failure, rfl⟩
  | ok a => exact ⟨.success, rfl⟩

/-- Witness for C1 at the spec's own example: last message has text
`"hello"` and a single URL entity `"http://x.test"`. -/
theorem mainGo_notifies_once_witness :
    ∃ st : ExitStatus,
      mainGo (.ok "body")
        (fun _ => .ok ⟨true, [⟨1, some ⟨2, "hello", some [⟨"url", 0, 1, "http://x.test"⟩]⟩⟩]⟩)
        (fun _ => .ok ())
      = .ok ⟨[⟨"New Message", "You received a new message: hello", "http://x.test"⟩], st⟩ := by
  obtain ⟨st, h⟩ := mainGo_notifies_once (.ok "body")
    (fun _ => .ok ⟨true, [⟨1, some ⟨2, "hello", some [⟨"url", 0, 1, "http://x.test"⟩]⟩⟩]⟩)
    (fun _ => .ok ()) [] ⟨1, some ⟨2, "hello", some [⟨"url", 0, 1, "http://x.test"⟩]⟩⟩
    ⟨2, "hello", some [⟨"url", 0, 1, "http://x.test"⟩]⟩ "http://x.test"
    rfl rfl rfl (by decide)
  exact ⟨st, by rw [h]; rfl⟩

/-- C4: the three absence-of-data conditions — empty update list, last
update with nil message, last message with empty extracted URL — each make
`main` exit with status 0 and perform no Notifier call. -/
theorem mainGo_absence (httpGet : Except String String)
    (decode : String → Except String Envelope)
    (notify : NotificationRequest → Except String Unit) :
    (GetUpdates httpGet decode = .ok [] →
      mainGo httpGet decode notify = .ok ⟨[], .success⟩) ∧
    (∀ front lastUpdate, GetUpdates httpGet decode = .ok (front ++ [lastUpdate]) →
      lastUpdate.message = none →
      mainGo httpGet decode notify = .ok ⟨[], .success⟩) ∧
    (∀ front lastUpdate message, GetUpdates httpGet decode = .ok (front ++ [lastUpdate]) →
      lastUpdate.message = some message → ExtractURL message = "" →
      mainGo httpGet decode notify = .ok ⟨[], .success⟩) := by
  refine ⟨fun h => ?_, fun front lastUpdate hfetch hmsg => ?_,
    fun front lastUpdate message hfetch hmsg hurl => ?_⟩
  · simp [mainGo, h]
  · rw [mainGo_last httpGet decode notify front lastUpdate hfetch]
    simp only [hmsg]
  · rw [mainGo_last httpGet decode notify front lastUpdate hfetch]
    simp only [hmsg, hurl]
    simp

/-- Witness for C4: each of the three conditions at a concrete input. -/
theorem mainGo_absence_witness :
    (mainGo (.ok "body") (fun _ => .ok ⟨true, []⟩) (fun _ => .ok ())
      = .ok ⟨[], .success⟩) ∧
    (mainGo (.ok "body") (fun _ => .ok ⟨true, [⟨1, none⟩]⟩) (fun _ => .ok ())
      = .ok ⟨[], .success⟩) ∧
    (mainGo (.ok "body") (fun _ => .ok ⟨true, [⟨1, some ⟨2, "hi", some []⟩⟩]⟩) (fun _ => .ok ())
      = .ok ⟨[], .success⟩) :=
  ⟨(mainGo_absence (.ok "body") (fun _ => .ok ⟨true, []⟩) (fun _ => .ok ())).1 rfl,
   (mainGo_absence (.ok "body") (fun _ => .ok ⟨true, [⟨1, none⟩]⟩) (fun _ => .ok ())).2.1
     [] ⟨1, none⟩ rfl rfl,
   (mainGo_absence (.ok "body") (fun _ => .ok ⟨true, [⟨1, some ⟨2, "hi", some []⟩⟩]⟩)
     (fun _ => .ok ())).2.2 [] ⟨1, some ⟨2, "hi", some []⟩⟩ ⟨2, "hi", some []⟩ rfl rfl rfl⟩

/-- C10: when the first URL-kind entity of the last message has an empty
URL field, `ExtractURL` returns `""` — the same sentinel as "no URL found"
— even though a later URL-kind entity carries a non-empty URL, and `main`
then exits with status 0 without invoking the Notifier. -/
theorem extractURL_empty_first_url (httpGet : Except String String)
    (decode : String → Except String Envelope)
    (notify : NotificationRequest → Except String Unit)
    (front : List Update) (lastUpdate : Update) (message : TelegramMsg)
    (pre : List Entity) (e : Entity) (post : List Entity)
    (hfetch : GetUpdates httpGet decode = .ok (front ++ [lastUpdate]))
    (hmsg : lastUpdate.message = some message)
    (hents : message.entities = some (pre ++ e :: post))
    (hpre : ∀ e2 ∈ pre, e2.type ≠ "url")
    (he : e.type = "url") (heurl : e.url = "")
    (_hlater : ∃ e2 ∈ post, e2.type = "url" ∧ e2.url ≠ "") :
    ExtractURL message = "" ∧ mainGo httpGet decode notify = .ok ⟨[], .success⟩ := by
  have hext : ExtractURL message = "" := by
    simp [ExtractURL, hents, findURLLoop_first_url post hpre he, heurl]
  refine ⟨hext, ?_⟩
  rw [mainGo_last httpGet decode notify front lastUpdate hfetch]
  simp only [hmsg, hext]
  simp

/-- Witness for C10: the first URL entity has `url = ""`, the second has
`url = "http://b.test"`; the run is a clean status-0 exit with no
notification. -/
theorem extractURL_empty_first_url_witness :
    ExtractURL ⟨2, "hi", some [⟨"url", 0, 1, ""⟩, ⟨"url", 2, 3, "http://b.test"⟩]⟩ = "" ∧
    mainGo (.ok "body")
      (fun _ => .ok ⟨true, [⟨1, some ⟨2, "hi",
        some [⟨"url", 0, 1, ""⟩, ⟨"url", 2, 3, "http://b.test"⟩]⟩⟩]⟩)
      (fun _ => .ok ())
      = .ok ⟨[], .success⟩ :=
  extractURL_empty_first_url (.ok "body")
    (fun _ => .ok ⟨true, [⟨1, some ⟨2, "hi",
      some [⟨"url", 0, 1, ""⟩, ⟨"url", 2, 3, "http://b.test"⟩]⟩⟩]⟩)
    (fun _ => .ok ()) [] ⟨1, some ⟨2, "hi",
      some [⟨"url", 0, 1, ""⟩, ⟨"url", 2, 3, "http://b.test"⟩]⟩⟩
    ⟨2, "hi", some [⟨"url", 0, 1, ""⟩, ⟨"url", 2, 3, "http://b.test"⟩]⟩
    [] ⟨"url", 0, 1, ""⟩ [⟨"url", 2, 3, "http://b.test"⟩]
    rfl rfl rfl (by decide) rfl rfl ⟨⟨"url", 2, 3, "http://b.test"⟩, by decide⟩

/-- C8: `ExtractURL` dereferences its message pointer without a nil guard,
so a nil argument faults (`ExtractURLPtr none = .nilDeref`); yet on every
input `main` returns a proper result — the fault branch is unreachable
because `main` calls `ExtractURL` only under its `lastUpdate.Message != nil`
check. -/
theorem extractURL_nil_precondition :
    ExtractURLPtr none = Exec.nilDeref ∧
    ∀ (httpGet : Except String String) (decode : String → Except String Envelope)
      (notify : NotificationRequest → Except String Unit),
      ∃ r : MainResult, mainGo httpGet decode notify = .ok r := by
  refine ⟨rfl, fun httpGet decode notify => ?_⟩
  cases hG : GetUpdates httpGet decode with
  | error e => exact ⟨⟨[], .failure⟩, by simp [mainGo, hG]⟩
  | ok updates =>
    cases updates with
    | nil => exact ⟨⟨[], .success⟩, by simp [mainGo, hG]⟩
    | cons u us =>
      have hfetch : GetUpdates httpGet decode
          = .ok ((u :: us).dropLast ++ [(u :: us).getLast (List.cons_ne_nil u us)]) := by
        rw [List.dropLast_append_getLast]; exact hG
      rw [mainGo_last httpGet decode notify _ _ hfetch]
      rcases hm : ((u :: us).getLast (List.cons_ne_nil u us)).message with _ | message
      · exact ⟨⟨[], .success⟩, by simp only [hm]⟩
      · simp only [hm]
        by_cases hu : ExtractURL message ≠ ""
        · rw [if_pos hu]
          rcases hn : notify ⟨"New Message", "You received a new message: " ++ message.text,
              ExtractURL message⟩ with e | a
          · exact ⟨⟨[⟨"New Message", "You received a new message: " ++ message.text,
              ExtractURL message⟩], .failure⟩, rfl⟩
          · exact ⟨⟨[⟨"New Message", "You received a new message: " ++ message.text,
              ExtractURL message⟩], .success⟩, rfl⟩
        · rw [if_neg hu]
          exact ⟨⟨[], .success⟩, rfl⟩

/-- C7: on every execution path of `ShowNotification` — the success path
and each failure path — every platform resource that was successfully
acquired (OLE init, the manager, the IDispatch interface, the notifier, the
template content) is released exactly once before the function returns: in
the run's event trace the release count of each resource equals its acquire
count, and no resource is acquired more than once. -/
theorem showNotification_release_balance (p : Platform) :
    ∀ r : Res,
      (ShowNotificationTrace p).1.count (ResEvent.release r)
        = (ShowNotificationTrace p).1.count (ResEvent.acquire r) ∧
      (ShowNotificationTrace p).1.count (ResEvent.acquire r) ≤ 1 := by
  obtain ⟨a, b, c, d, e, f, g⟩ := p
  revert a b c d e f g
  decide

set_option maxRecDepth 8000 in
/-- C9: for all arguments, the toast payload is the fixed XML template
with the three strings substituted verbatim — plain concatenation with the
four constant template segments, no escaping or validation — and a URL
containing the single-quote attribute delimiter breaks the document
structure: the `arguments` attribute an XML reader delimits is only a
proper prefix of such a URL, while a quote-free URL comes back intact. -/
theorem toastXML_unescaped :
    (∀ title message url : String,
      toastXML title message url
        = "\n    <toast>\n        <visual>\n            <binding template=\x27ToastGeneric\x27>\n                <text>"
          ++ title ++ "</text>\n                <text>" ++ message
          ++ "</text>\n            </binding>\n        </visual>\n        <actions>\n            <action content=\x27Open browser\x27 arguments=\x27"
          ++ url ++ "\x27 activationType=\x27foreground\x27/>\n        </actions>\n    </toast>") ∧
    argumentsAttrValue (toastXML "Title" "Body" "http://e.test") = some "http://e.test" ∧
    argumentsAttrValue (toastXML "Title" "Body" "x\x27 data=\x27evil") = some "x" ∧
    ("x" : String) ≠ "x\x27 data=\x27evil" := by
  refine ⟨fun title message url => rfl, by decide, by decide, by decide⟩

end Telephish
